import Mathlib

/-!
Shallow embedding of the offline response-cache controller (service worker
in src/unnamed/part_002) of the ha-pass repository: route classification,
the three caching strategies of the fetch listener, and the install /
activate cache-generation lifecycle.

Modelling conventions:
* a request identity is its URL (hostname plus pathname);
* a network is a function from URL to an optional response; a result of
  none models a rejected fetch (network error), some r models a resolved
  response of any status (a non-success status still resolves in JS);
* the cache storage is a list of named stores in creation order, matching
  the Cache API: caches.open appends a fresh empty store when the name is
  absent, caches.match searches every store in creation order, cache.put
  overwrites the entry for the request identity in the named store;
* each fetch-event handler runs to completion, its fire-and-forget cache
  write included, before the next event is dispatched (the sequential
  interleaving of the event loop);
* cache.addAll is atomic and requires every response to be successful,
  as the Cache API specifies.
-/

/-- A request URL, reduced to the parts the controller inspects. -/
structure Url where
  hostname : String
  pathname : String
deriving DecidableEq, Repr

/-- A network response: status code and body bytes. -/
structure Response where
  status : Nat
  body : String
deriving DecidableEq, Repr

/-- Response.ok of the fetch API: status in the 200 range. -/
def Response.ok (r : Response) : Bool :=
  decide (200 ≤ r.status) && decide (r.status < 300)

/-- JS String.prototype.isPrefixOf-style check on character lists. -/
def charsLeadWith : List Char → List Char → Bool
  | [], _ => true
  | _ :: _, [] => false
  | c :: cs, d :: ds => if c = d then charsLeadWith cs ds else false

/-- JS substring membership on character lists. -/
def listIncludes (sub : List Char) : List Char → Bool
  | [] => charsLeadWith sub []
  | c :: rest => charsLeadWith sub (c :: rest) || listIncludes sub rest

/-- JS url.pathname.startsWith(pre). -/
def jsStartsWith (s pre : String) : Bool := charsLeadWith pre.data s.data

/-- JS url.pathname.includes(sub). -/
def jsIncludes (s sub : String) : Bool := listIncludes sub.data s.data

/-- The exclusion condition of the fetch listener (src/unnamed/part_002
lines 37-43): streaming, admin, state, command and manifest routes. -/
def isExcludedUrl (u : Url) : Bool :=
  jsIncludes u.pathname "/stream" ||
  jsStartsWith u.pathname "/admin" ||
  jsIncludes u.pathname "/state" ||
  jsIncludes u.pathname "/command" ||
  jsIncludes u.pathname "/manifest.json"

/-- The static-assets prefix check (line 47 of the fetch listener). -/
def isStaticAsset (u : Url) : Bool := jsStartsWith u.pathname "/static/"

/-- The third-party host allow-list check (lines 63-64). -/
def isAllowedThirdPartyHost (u : Url) : Bool :=
  u.hostname == "fonts.googleapis.com" || u.hostname == "fonts.gstatic.com"

/-- The four route classes of the dispatcher. -/
inductive RouteClass where
  | excluded
  | shellAsset
  | crossOriginCacheable
  | dynamic
deriving DecidableEq, Repr

/-- Route classification: the branch order of the fetch listener. -/
def classify (u : Url) : RouteClass :=
  if isExcludedUrl u then .excluded
  else if isStaticAsset u then .shellAsset
  else if isAllowedThirdPartyHost u then .crossOriginCacheable
  else .dynamic

example : classify ⟨"example.com", "/admin/dashboard"⟩ = .excluded := by decide
example : classify ⟨"example.com", "/static/dist.css"⟩ = .shellAsset := by decide
example : classify ⟨"fonts.gstatic.com", "/font.woff2"⟩ = .crossOriginCacheable := by decide
example : classify ⟨"example.com", "/g/abc"⟩ = .dynamic := by decide
example : classify ⟨"example.com", "/static/state.js"⟩ = .excluded := by decide
example : classify ⟨"example.com", "/static/streaming.png"⟩ = .excluded := by decide

/-- One named cache store: an association list from request identity to
the stored response. -/
abbrev Store := List (Url × Response)

/-- The Cache Storage: named stores in creation order. -/
abbrev CacheStorage := List (String × Store)

/-- First entry stored for a URL in one store (Cache.match on one cache). -/
def storeMatch : Store → Url → Option Response
  | [], _ => none
  | (u', r) :: rest, u => if u' = u then some r else storeMatch rest u

/-- Whether a store of the given name exists (caches.has). -/
def csHas : CacheStorage → String → Bool
  | [], _ => false
  | (n, _) :: rest, v => if n = v then true else csHas rest v

/-- The store of the given name, when present. -/
def csLookup : CacheStorage → String → Option Store
  | [], _ => none
  | (n, st) :: rest, v => if n = v then some st else csLookup rest v

/-- caches.open: appends a fresh empty store when the name is absent. -/
def csOpen (cs : CacheStorage) (v : String) : CacheStorage :=
  if csHas cs v then cs else cs ++ [(v, [])]

/-- Overwrite (or insert) the entry for a URL in one store (Cache.put). -/
def storePut : Store → Url → Response → Store
  | [], u, r => [(u, r)]
  | (u', r') :: rest, u, r =>
      if u' = u then (u, r) :: rest else (u', r') :: storePut rest u r

/-- caches.open(v).then(cache.put(u, r)): write through the named store. -/
def csPut (cs : CacheStorage) (v : String) (u : Url) (r : Response) : CacheStorage :=
  (csOpen cs v).map (fun p => if p.1 = v then (v, storePut p.2 u r) else p)

/-- caches.match: search every store in creation order, first hit wins. -/
def csMatch : CacheStorage → Url → Option Response
  | [], _ => none
  | (_, st) :: rest, u =>
      match storeMatch st u with
      | some r => some r
      | none => csMatch rest u

/-- What the fetch-event handler delivers to the page. -/
inductive FetchResult where
  /-- The exclusion branch returned without respondWith: the request is
  not intercepted and goes to the network unobserved. -/
  | notIntercepted
  /-- respondWith resolved with this response. -/
  | response (r : Response)
  /-- respondWith rejected or resolved with undefined: the page sees a
  network error. -/
  | failure
deriving DecidableEq, Repr

/-- Observable outcome of handling one fetch event: the result delivered,
the cache storage afterwards, and counters of the cache reads, cache
writes and network fetches the controller itself performed. -/
structure StepOut where
  result : FetchResult
  stores : CacheStorage
  reads : Nat
  writes : Nat
  fetched : List Url
deriving DecidableEq, Repr

/-- The fetch listener of src/unnamed/part_002, lines 34-79.  `version` is
the CACHE_VERSION baked in at build time, `net` the network. The handler
and its fire-and-forget write run to completion within the step. -/
def handleFetch (version : String) (net : Url → Option Response)
    (cs : CacheStorage) (u : Url) : StepOut :=
  match classify u with
  | .excluded =>
      -- early return: no respondWith, no cache access, no fetch issued
      ⟨.notIntercepted, cs, 0, 0, []⟩
  | .shellAsset =>
      -- stale-while-revalidate: answer from cache when possible, always
      -- fetch, and put any resolved response (no status check in source)
      let cached := csMatch cs u
      match net u with
      | some r =>
          ⟨.response (cached.getD r), csPut cs version u r, 1, 1, [u]⟩
      | none =>
          match cached with
          | some c => ⟨.response c, cs, 1, 0, [u]⟩
          | none => ⟨.failure, cs, 1, 0, [u]⟩
  | .crossOriginCacheable =>
      -- cache-first: only on a miss fetch and store the resolved response
      match csMatch cs u with
      | some c => ⟨.response c, cs, 1, 0, []⟩
      | none =>
          match net u with
          | some r => ⟨.response r, csPut cs version u r, 1, 1, [u]⟩
          | none => ⟨.failure, cs, 1, 0, [u]⟩
  | .dynamic =>
      -- network-first: fetch, and only a rejected fetch falls back to the
      -- cache; a resolved response of any status is returned as is
      match net u with
      | some r => ⟨.response r, cs, 0, 0, [u]⟩
      | none =>
          match csMatch cs u with
          | some c => ⟨.response c, cs, 1, 0, [u]⟩
          | none => ⟨.failure, cs, 1, 0, [u]⟩

/-- The shell asset list of src/unnamed/part_002, lines 6-16. -/
def SHELL_ASSETS : List String :=
  [ "/static/dist.css",
    "/static/icons/icon-192.png",
    "/static/icons/icon-512.png",
    "/static/icons/icon-maskable-192.png",
    "/static/icons/icon-maskable-512.png",
    "/static/domains.js",
    "/static/theme.js",
    "/static/util.js",
    "/static/qrcode.min.js" ]

/-- The shell asset URLs on the controller's own origin. -/
def shellUrls (host : String) : List Url :=
  SHELL_ASSETS.map (fun p => ⟨host, p⟩)

/-- A fetch as Cache.addAll sees it: a rejected fetch and a resolved
response with a non-success status both count as failed. -/
def fetchOk (net : Url → Option Response) (u : Url) : Option Response :=
  match net u with
  | some r => if r.ok then some r else none
  | none => none

/-- Fetch every URL for Cache.addAll: all responses, or none when any
single fetch fails (addAll is an atomic batch operation). -/
def allFetch (net : Url → Option Response) : List Url → Option (List (Url × Response))
  | [] => some []
  | u :: rest =>
      match fetchOk net u with
      | none => none
      | some r =>
          match allFetch net rest with
          | none => none
          | some prs => some ((u, r) :: prs)

/-- The install listener, lines 18-23: caches.open(CACHE_VERSION) — which
creates the store when absent — then cache.addAll(SHELL_ASSETS).  Returns
whether install succeeded together with the cache storage afterwards.  On
failure addAll adds nothing, but the store opened for the new generation
remains in the cache storage. -/
def install (version host : String) (net : Url → Option Response)
    (cs : CacheStorage) : Bool × CacheStorage :=
  let cs1 := csOpen cs version
  match allFetch net (shellUrls host) with
  | some prs => (true, prs.foldl (fun acc pr => csPut acc version pr.1 pr.2) cs1)
  | none => (false, cs1)

/-- The activate listener, lines 25-32: delete every store whose name is
not CACHE_VERSION. -/
def activate (version : String) (cs : CacheStorage) : CacheStorage :=
  cs.filter (fun p => p.1 = version)

/-- Controller state across generations: the cache storage and the
generation the active (controlling) service worker was built with. -/
structure SW where
  stores : CacheStorage
  active : String
deriving DecidableEq, Repr

/-- One deployment of a new generation: run install; only a successful
install lets the new worker proceed to activate (skipWaiting plus
clients.claim) and become the active generation, while a failed install
leaves the previously active worker in control. -/
def upgrade (version host : String) (net : Url → Option Response) (sw : SW) : SW :=
  match install version host net sw.stores with
  | (true, cs') => ⟨activate version cs', version⟩
  | (false, cs') => ⟨cs', sw.active⟩

/-- The entry a direct read of the named store would see, used to state
which store a write landed in. -/
def csRead (cs : CacheStorage) (v : String) (u : Url) : Option Response :=
  (csLookup cs v).bind (fun st => storeMatch st u)

/- Helper lemmas about the cache-storage operations. -/

theorem storeMatch_storePut (st : Store) (u : Url) (r : Response) :
    storeMatch (storePut st u r) u = some r := by
  induction st with
  | nil => simp [storePut, storeMatch]
  | cons p rest ih =>
      obtain ⟨pu, pr⟩ := p
      by_cases h : pu = u
      · simp [storePut, h, storeMatch]
      · simp [storePut, h, storeMatch, ih]

theorem storeMatch_storePut_ne (st : Store) (u u' : Url) (r : Response)
    (h : u' ≠ u) : storeMatch (storePut st u r) u' = storeMatch st u' := by
  induction st with
  | nil => simp [storePut, storeMatch, Ne.symm h]
  | cons p rest ih =>
      obtain ⟨pu, pr⟩ := p
      by_cases hp : pu = u
      · simp [storePut, hp, storeMatch, Ne.symm h]
      · simp [storePut, hp, storeMatch, ih]

theorem csLookup_append_empty_ne (cs : CacheStorage) (v n : String) (h : n ≠ v) :
    csLookup (cs ++ [(v, [])]) n = csLookup cs n := by
  induction cs with
  | nil => simp [csLookup, Ne.symm h]
  | cons p rest ih =>
      obtain ⟨pn, pst⟩ := p
      by_cases hp : pn = n
      · simp [csLookup, hp]
      · simp [csLookup, hp, ih]

theorem csHas_append_empty (cs : CacheStorage) (v : String) :
    csHas (cs ++ [(v, [])]) v = true := by
  induction cs with
  | nil => simp [csHas]
  | cons p rest ih =>
      obtain ⟨pn, pst⟩ := p
      by_cases hp : pn = v
      · simp [csHas, hp]
      · simp [csHas, hp, ih]

theorem csLookup_csOpen_ne (cs : CacheStorage) (v n : String) (h : n ≠ v) :
    csLookup (csOpen cs v) n = csLookup cs n := by
  unfold csOpen
  by_cases hh : csHas cs v
  · rw [if_pos hh]
  · rw [if_neg hh, csLookup_append_empty_ne cs v n h]

theorem csHas_of_csOpen (cs : CacheStorage) (v : String) :
    csHas (csOpen cs v) v = true := by
  unfold csOpen
  by_cases hh : csHas cs v
  · rw [if_pos hh]; exact hh
  · rw [if_neg hh]; exact csHas_append_empty cs v

theorem csLookup_map_put_ne (cs : CacheStorage) (v : String) (u : Url)
    (r : Response) (n : String) (h : n ≠ v) :
    csLookup (cs.map (fun p => if p.1 = v then (v, storePut p.2 u r) else p)) n
      = csLookup cs n := by
  induction cs with
  | nil => simp [csLookup]
  | cons p rest ih =>
      obtain ⟨pn, pst⟩ := p
      rw [List.map_cons]
      by_cases hp : pn = v
      · subst hp
        have hhead : (if ((pn, pst) : String × Store).1 = pn
            then (pn, storePut ((pn, pst) : String × Store).2 u r) else (pn, pst))
              = ((pn, storePut pst u r) : String × Store) := by simp
        rw [hhead]
        simp [csLookup, Ne.symm h, ih]
      · have hhead : (if ((pn, pst) : String × Store).1 = v
            then (v, storePut ((pn, pst) : String × Store).2 u r) else (pn, pst))
              = ((pn, pst) : String × Store) := by simp [hp]
        rw [hhead]
        by_cases hn : pn = n
        · subst hn
          simp [csLookup]
        · simp [csLookup, hn, ih]

theorem csLookup_csPut_ne (cs : CacheStorage) (v : String) (u : Url)
    (r : Response) (n : String) (h : n ≠ v) :
    csLookup (csPut cs v u r) n = csLookup cs n := by
  unfold csPut
  rw [csLookup_map_put_ne _ v u r n h, csLookup_csOpen_ne cs v n h]

theorem csRead_map_put (cs : CacheStorage) (v : String) (u : Url) (r : Response) :
    csHas cs v = true →
    csRead (cs.map (fun p => if p.1 = v then (v, storePut p.2 u r) else p)) v u
      = some r := by
  induction cs with
  | nil => intro hhas; simp [csHas] at hhas
  | cons p rest ih =>
      intro hhas
      obtain ⟨pn, pst⟩ := p
      rw [List.map_cons]
      by_cases hp : pn = v
      · subst hp
        have hhead : (if ((pn, pst) : String × Store).1 = pn
            then (pn, storePut ((pn, pst) : String × Store).2 u r) else (pn, pst))
              = ((pn, storePut pst u r) : String × Store) := by simp
        rw [hhead]
        simp [csRead, csLookup, storeMatch_storePut]
      · have hhead : (if ((pn, pst) : String × Store).1 = v
            then (v, storePut ((pn, pst) : String × Store).2 u r) else (pn, pst))
              = ((pn, pst) : String × Store) := by simp [hp]
        rw [hhead]
        rw [csHas, if_neg hp] at hhas
        simpa [csRead, csLookup, hp] using ih hhas

theorem csRead_csPut (cs : CacheStorage) (v : String) (u : Url) (r : Response) :
    csRead (csPut cs v u r) v u = some r := by
  unfold csPut
  exact csRead_map_put (csOpen cs v) v u r (csHas_of_csOpen cs v)

theorem csMatch_append_empty (cs : CacheStorage) (v : String) (u : Url) :
    csMatch (cs ++ [(v, [])]) u = csMatch cs u := by
  induction cs with
  | nil => simp [csMatch, storeMatch]
  | cons p rest ih =>
      obtain ⟨pn, pst⟩ := p
      cases hm : storeMatch pst u <;> simp [csMatch, hm, ih]

theorem csMatch_single (v : String) (st : Store) (u : Url) :
    csMatch [(v, st)] u = storeMatch st u := by
  cases hm : storeMatch st u <;> simp [csMatch, hm]

theorem csPut_single (v : String) (st : Store) (u : Url) (r : Response) :
    csPut [(v, st)] v u r = [(v, storePut st u r)] := by
  simp [csPut, csOpen, csHas]

theorem csLookup_foldl_put_ne (prs : List (Url × Response)) (acc : CacheStorage)
    (v n : String) (h : n ≠ v) :
    csLookup (prs.foldl (fun acc pr => csPut acc v pr.1 pr.2) acc) n
      = csLookup acc n := by
  induction prs generalizing acc with
  | nil => rfl
  | cons pr rest ih =>
      rw [List.foldl_cons, ih (csPut acc v pr.1 pr.2),
        csLookup_csPut_ne acc v pr.1 pr.2 n h]

theorem allFetch_eq_none (net : Url → Option Response) (l : List Url) (u : Url)
    (hu : u ∈ l) (hf : fetchOk net u = none) : allFetch net l = none := by
  induction l with
  | nil => cases hu
  | cons x rest ih =>
      rcases List.mem_cons.mp hu with h1 | h2
      · subst h1
        simp [allFetch, hf]
      · cases hfx : fetchOk net x
        · simp [allFetch, hfx]
        · simp [allFetch, hfx, ih h2]

theorem csLookup_activate_ne (v : String) (cs : CacheStorage) (n : String)
    (h : n ≠ v) : csLookup (activate v cs) n = none := by
  induction cs with
  | nil => simp [activate, csLookup]
  | cons p rest ih =>
      obtain ⟨pn, pst⟩ := p
      by_cases hp : pn = v
      · subst hp
        simp only [activate, List.filter_cons] at ih ⊢
        simp [csLookup, Ne.symm h, ih]
      · simp only [activate, List.filter_cons] at ih ⊢
        simp [hp, ih]

theorem csLookup_activate_self (v : String) (cs : CacheStorage) :
    csLookup (activate v cs) v = csLookup cs v := by
  induction cs with
  | nil => simp [activate]
  | cons p rest ih =>
      obtain ⟨pn, pst⟩ := p
      by_cases hp : pn = v
      · subst hp
        simp only [activate, List.filter_cons] at ih ⊢
        simp [csLookup, ih]
      · simp only [activate, List.filter_cons] at ih ⊢
        simp [csLookup, hp, ih]

theorem activate_names (v : String) (cs : CacheStorage) :
    ∀ p ∈ activate v cs, p.1 = v := by
  intro p hp
  simp only [activate] at hp
  simpa using List.of_mem_filter hp

theorem names_csOpen (cs : CacheStorage) (v : String)
    (hall : ∀ p ∈ cs, p.1 = v) : ∀ p ∈ csOpen cs v, p.1 = v := by
  intro p hp
  unfold csOpen at hp
  by_cases hh : csHas cs v
  · rw [if_pos hh] at hp
    exact hall p hp
  · rw [if_neg hh] at hp
    rcases List.mem_append.mp hp with h1 | h2
    · exact hall p h1
    · simp only [List.mem_singleton] at h2
      rw [h2]

theorem names_map_put (cs : CacheStorage) (v : String) (u : Url) (r : Response)
    (hall : ∀ p ∈ cs, p.1 = v) :
    ∀ p ∈ cs.map (fun p => if p.1 = v then (v, storePut p.2 u r) else p),
      p.1 = v := by
  intro p hp
  rcases List.mem_map.mp hp with ⟨q, hq, hqe⟩
  subst hqe
  by_cases hqv : q.1 = v
  · simp [hqv]
  · simp only [if_neg hqv]
    exact hall q hq

theorem csPut_names (cs : CacheStorage) (v : String) (u : Url) (r : Response)
    (hall : ∀ p ∈ cs, p.1 = v) : ∀ p ∈ csPut cs v u r, p.1 = v := by
  unfold csPut
  exact names_map_put (csOpen cs v) v u r (names_csOpen cs v hall)

theorem csLookup_append_empty_self (cs : CacheStorage) (v : String)
    (h : csHas cs v = false) : csLookup (cs ++ [(v, [])]) v = some [] := by
  induction cs with
  | nil => simp [csLookup]
  | cons p rest ih =>
      obtain ⟨pn, pst⟩ := p
      by_cases hp : pn = v
      · rw [csHas, if_pos hp] at h
        cases h
      · rw [csHas, if_neg hp] at h
        rw [List.cons_append, csLookup, if_neg hp]
        exact ih h

/- Helper lemmas about the fetch handler. -/

theorem handleFetch_of_excluded (version : String) (net : Url → Option Response)
    (cs : CacheStorage) (u : Url) (h : classify u = .excluded) :
    handleFetch version net cs u = ⟨.notIntercepted, cs, 0, 0, []⟩ := by
  simp [handleFetch, h]

theorem handleFetch_stores_ne (version : String) (net : Url → Option Response)
    (cs : CacheStorage) (u : Url) (n : String) (h : n ≠ version) :
    csLookup (handleFetch version net cs u).stores n = csLookup cs n := by
  cases hcl : classify u
  case excluded => simp [handleFetch, hcl]
  case shellAsset =>
      cases hn : net u with
      | none => cases hm : csMatch cs u <;> simp [handleFetch, hcl, hn, hm]
      | some r => simp [handleFetch, hcl, hn, csLookup_csPut_ne cs version u r n h]
  case crossOriginCacheable =>
      cases hm : csMatch cs u with
      | none =>
          cases hn : net u with
          | none => simp [handleFetch, hcl, hm, hn]
          | some r => simp [handleFetch, hcl, hm, hn,
              csLookup_csPut_ne cs version u r n h]
      | some c => simp [handleFetch, hcl, hm]
  case dynamic =>
      cases hn : net u with
      | none => cases hm : csMatch cs u <;> simp [handleFetch, hcl, hn, hm]
      | some r => simp [handleFetch, hcl, hn]

theorem handleFetch_names (version : String) (net : Url → Option Response)
    (cs : CacheStorage) (u : Url) (hall : ∀ p ∈ cs, p.1 = version) :
    ∀ p ∈ (handleFetch version net cs u).stores, p.1 = version := by
  cases hcl : classify u
  case excluded => simpa [handleFetch, hcl] using hall
  case shellAsset =>
      cases hn : net u with
      | none => cases hm : csMatch cs u <;> simpa [handleFetch, hcl, hn, hm] using hall
      | some r =>
          simp only [handleFetch, hcl, hn]
          exact csPut_names cs version u r hall
  case crossOriginCacheable =>
      cases hm : csMatch cs u with
      | none =>
          cases hn : net u with
          | none => simpa [handleFetch, hcl, hm, hn] using hall
          | some r =>
              simp only [handleFetch, hcl, hm, hn]
              exact csPut_names cs version u r hall
      | some c => simpa [handleFetch, hcl, hm] using hall
  case dynamic =>
      cases hn : net u with
      | none => cases hm : csMatch cs u <;> simpa [handleFetch, hcl, hn, hm] using hall
      | some r => simpa [handleFetch, hcl, hn] using hall

theorem handleFetch_result_append_empty (version : String)
    (net : Url → Option Response) (cs : CacheStorage) (v : String) (u : Url) :
    (handleFetch version net (cs ++ [(v, [])]) u).result
      = (handleFetch version net cs u).result := by
  cases hcl : classify u
  case excluded => simp [handleFetch, hcl]
  case shellAsset =>
      cases hn : net u <;> cases hm : csMatch cs u <;>
        simp [handleFetch, hcl, hn, hm, csMatch_append_empty]
  case crossOriginCacheable =>
      cases hn : net u <;> cases hm : csMatch cs u <;>
        simp [handleFetch, hcl, hn, hm, csMatch_append_empty]
  case dynamic =>
      cases hn : net u <;> cases hm : csMatch cs u <;>
        simp [handleFetch, hcl, hn, hm, csMatch_append_empty]

/- The claim theorems. -/

/-- Claim C2: route classification is a pure total function of the request
URL, evaluated first-match-wins in the source's branch order: the exclusion
predicates first, then the static-assets prefix, then the third-party host
allow-list, with dynamic as the fall-through default; every request
receives exactly one class. -/
theorem classify_first_match_wins (u : Url) :
    (classify u = .excluded ↔ isExcludedUrl u = true)
    ∧ (classify u = .shellAsset ↔
        (isExcludedUrl u = false ∧ isStaticAsset u = true))
    ∧ (classify u = .crossOriginCacheable ↔
        (isExcludedUrl u = false ∧ isStaticAsset u = false
          ∧ isAllowedThirdPartyHost u = true))
    ∧ (classify u = .dynamic ↔
        (isExcludedUrl u = false ∧ isStaticAsset u = false
          ∧ isAllowedThirdPartyHost u = false)) := by
  cases hE : isExcludedUrl u <;> cases hS : isStaticAsset u <;>
    cases hH : isAllowedThirdPartyHost u <;> simp [classify, hE, hS, hH]

/-- Claim C7: for a request classified excluded, the controller does not
intercept it, performs zero cache reads and zero cache writes, issues no
fetch of its own, and the cache storage is identical afterwards. -/
theorem excluded_no_interception (version : String)
    (net : Url → Option Response) (cs : CacheStorage) (u : Url)
    (h : classify u = .excluded) :
    (handleFetch version net cs u).result = .notIntercepted
    ∧ (handleFetch version net cs u).stores = cs
    ∧ (handleFetch version net cs u).reads = 0
    ∧ (handleFetch version net cs u).writes = 0
    ∧ (handleFetch version net cs u).fetched = [] := by
  rw [handleFetch_of_excluded version net cs u h]
  exact ⟨rfl, rfl, rfl, rfl, rfl⟩

/-- Witness for C7 at a streaming-style path with a populated store. -/
theorem excluded_no_interception_witness :
    (handleFetch "v1" (fun _ => some ⟨200, "live"⟩)
        [("v1", [(⟨"example.com", "/static/dist.css"⟩, ⟨200, "css"⟩)])]
        ⟨"example.com", "/g/abc/stream"⟩).result = .notIntercepted
    ∧ (handleFetch "v1" (fun _ => some ⟨200, "live"⟩)
        [("v1", [(⟨"example.com", "/static/dist.css"⟩, ⟨200, "css"⟩)])]
        ⟨"example.com", "/g/abc/stream"⟩).stores
      = [("v1", [(⟨"example.com", "/static/dist.css"⟩, ⟨200, "css"⟩)])]
    ∧ (handleFetch "v1" (fun _ => some ⟨200, "live"⟩)
        [("v1", [(⟨"example.com", "/static/dist.css"⟩, ⟨200, "css"⟩)])]
        ⟨"example.com", "/g/abc/stream"⟩).reads = 0
    ∧ (handleFetch "v1" (fun _ => some ⟨200, "live"⟩)
        [("v1", [(⟨"example.com", "/static/dist.css"⟩, ⟨200, "css"⟩)])]
        ⟨"example.com", "/g/abc/stream"⟩).writes = 0
    ∧ (handleFetch "v1" (fun _ => some ⟨200, "live"⟩)
        [("v1", [(⟨"example.com", "/static/dist.css"⟩, ⟨200, "css"⟩)])]
        ⟨"example.com", "/g/abc/stream"⟩).fetched = [] :=
  excluded_no_interception "v1" (fun _ => some ⟨200, "live"⟩)
    [("v1", [(⟨"example.com", "/static/dist.css"⟩, ⟨200, "css"⟩)])]
    ⟨"example.com", "/g/abc/stream"⟩ (by decide)

/-- Claim C10: the exclusion substring checks run before the static-prefix
check, so a request under the static prefix whose path also matches an
exclusion substring is classified excluded and never touches the cache. -/
theorem static_path_with_exclusion_substring (version : String)
    (net : Url → Option Response) (cs : CacheStorage) (u : Url)
    (hstatic : isStaticAsset u = true) (hexcl : isExcludedUrl u = true) :
    classify u = .excluded
    ∧ (handleFetch version net cs u).stores = cs
    ∧ (handleFetch version net cs u).reads = 0
    ∧ (handleFetch version net cs u).writes = 0 := by
  have hc : classify u = .excluded := by simp [classify, hexcl]
  rw [handleFetch_of_excluded version net cs u hc]
  exact ⟨hc, rfl, rfl, rfl⟩

/-- Witness for C10 at /static/state.js and /static/streaming.png. -/
theorem static_path_with_exclusion_substring_witness :
    (classify ⟨"example.com", "/static/state.js"⟩ = .excluded
      ∧ (handleFetch "v1" (fun _ => none) [] ⟨"example.com", "/static/state.js"⟩).stores = []
      ∧ (handleFetch "v1" (fun _ => none) [] ⟨"example.com", "/static/state.js"⟩).reads = 0
      ∧ (handleFetch "v1" (fun _ => none) [] ⟨"example.com", "/static/state.js"⟩).writes = 0)
    ∧ (classify ⟨"example.com", "/static/streaming.png"⟩ = .excluded
      ∧ (handleFetch "v1" (fun _ => none) [] ⟨"example.com", "/static/streaming.png"⟩).stores = []
      ∧ (handleFetch "v1" (fun _ => none) [] ⟨"example.com", "/static/streaming.png"⟩).reads = 0
      ∧ (handleFetch "v1" (fun _ => none) [] ⟨"example.com", "/static/streaming.png"⟩).writes = 0) :=
  ⟨static_path_with_exclusion_substring "v1" (fun _ => none) []
      ⟨"example.com", "/static/state.js"⟩ (by decide) (by decide),
    static_path_with_exclusion_substring "v1" (fun _ => none) []
      ⟨"example.com", "/static/streaming.png"⟩ (by decide) (by decide)⟩

/-- Claim C3: stale-while-revalidate.  With the active generation's store
the sole store and a cached entry present, the first request returns the
cached (stale) bytes even though the network returns different bytes;
after the revalidation write settles the cache entry holds the fresh
bytes, and a subsequent request — under any network — returns them.  With
no cached entry anywhere, the caller receives the network response. -/
theorem swr_stale_then_fresh (version : String)
    (net net2 : Url → Option Response) (st : Store) (u : Url)
    (old fresh : Response)
    (hcl : classify u = .shellAsset)
    (hcached : storeMatch st u = some old)
    (hnet : net u = some fresh) :
    (handleFetch version net [(version, st)] u).result = .response old
    ∧ csMatch (handleFetch version net [(version, st)] u).stores u = some fresh
    ∧ (handleFetch version net2
        (handleFetch version net [(version, st)] u).stores u).result
          = .response fresh
    ∧ (∀ cs : CacheStorage, csMatch cs u = none →
        (handleFetch version net cs u).result = .response fresh) := by
  have hm1 : csMatch [(version, st)] u = some old := by
    rw [csMatch_single]
    exact hcached
  have hout : handleFetch version net [(version, st)] u
      = ⟨.response old, csPut [(version, st)] version u fresh, 1, 1, [u]⟩ := by
    simp [handleFetch, hcl, hm1, hnet]
  have hstores : (handleFetch version net [(version, st)] u).stores
      = [(version, storePut st u fresh)] := by
    rw [hout]
    exact csPut_single version st u fresh
  have hm2 : csMatch [(version, storePut st u fresh)] u = some fresh := by
    rw [csMatch_single]
    exact storeMatch_storePut st u fresh
  refine ⟨by rw [hout], by rw [hstores]; exact hm2, ?_, ?_⟩
  · rw [hstores]
    cases hn2 : net2 u <;> simp [handleFetch, hcl, hm2, hn2]
  · intro cs hm
    simp [handleFetch, hcl, hm, hnet]

/-- Witness for C3: /static/dist.css cached as old bytes, network has new
bytes; the first request serves old, the second serves new. -/
theorem swr_stale_then_fresh_witness :
    (handleFetch "v1" (fun _ => some ⟨200, "new"⟩)
        [("v1", [(⟨"example.com", "/static/dist.css"⟩, ⟨200, "old"⟩)])]
        ⟨"example.com", "/static/dist.css"⟩).result = .response ⟨200, "old"⟩
    ∧ csMatch (handleFetch "v1" (fun _ => some ⟨200, "new"⟩)
        [("v1", [(⟨"example.com", "/static/dist.css"⟩, ⟨200, "old"⟩)])]
        ⟨"example.com", "/static/dist.css"⟩).stores
        ⟨"example.com", "/static/dist.css"⟩ = some ⟨200, "new"⟩
    ∧ (handleFetch "v1" (fun _ => none)
        (handleFetch "v1" (fun _ => some ⟨200, "new"⟩)
          [("v1", [(⟨"example.com", "/static/dist.css"⟩, ⟨200, "old"⟩)])]
          ⟨"example.com", "/static/dist.css"⟩).stores
        ⟨"example.com", "/static/dist.css"⟩).result = .response ⟨200, "new"⟩
    ∧ (∀ cs : CacheStorage, csMatch cs ⟨"example.com", "/static/dist.css"⟩ = none →
        (handleFetch "v1" (fun _ => some ⟨200, "new"⟩) cs
          ⟨"example.com", "/static/dist.css"⟩).result = .response ⟨200, "new"⟩) :=
  swr_stale_then_fresh "v1" (fun _ => some ⟨200, "new"⟩) (fun _ => none)
    [(⟨"example.com", "/static/dist.css"⟩, ⟨200, "old"⟩)]
    ⟨"example.com", "/static/dist.css"⟩ ⟨200, "old"⟩ ⟨200, "new"⟩
    (by decide) (by decide) (by decide)

/-- Claim C4: network-first for dynamic routes.  A fetch is attempted; a
resolved response is returned as is, a rejected fetch falls back to the
cached response for the same request identity when one exists and
otherwise propagates the failure; the cache storage is never written in
this path. -/
theorem network_first_no_cache_write (version : String)
    (net : Url → Option Response) (cs : CacheStorage) (u : Url)
    (hcl : classify u = .dynamic) :
    (handleFetch version net cs u).stores = cs
    ∧ (handleFetch version net cs u).writes = 0
    ∧ (handleFetch version net cs u).result =
        (match net u with
         | some r => .response r
         | none =>
             match csMatch cs u with
             | some c => .response c
             | none => .failure) := by
  cases hn : net u with
  | some r => simp [handleFetch, hcl, hn]
  | none => cases hm : csMatch cs u <;> simp [handleFetch, hcl, hn, hm]

/-- Witness for C4: a rejected fetch on a dynamic route with no cache
entry propagates the failure and writes nothing. -/
theorem network_first_no_cache_write_witness :
    (handleFetch "v1" (fun _ => none) [("v1", [])] ⟨"example.com", "/g/abc"⟩).stores
      = [("v1", [])]
    ∧ (handleFetch "v1" (fun _ => none) [("v1", [])] ⟨"example.com", "/g/abc"⟩).writes = 0
    ∧ (handleFetch "v1" (fun _ => none) [("v1", [])] ⟨"example.com", "/g/abc"⟩).result =
        (match (fun (_ : Url) => (none : Option Response)) ⟨"example.com", "/g/abc"⟩ with
         | some r => .response r
         | none =>
             match csMatch [("v1", [])] ⟨"example.com", "/g/abc"⟩ with
             | some c => .response c
             | none => .failure) :=
  network_first_no_cache_write "v1" (fun _ => none) [("v1", [])]
    ⟨"example.com", "/g/abc"⟩ (by decide)

/-- Claim C6: cache-first determinism.  A cross-origin-cacheable request
with a cached entry is answered from the cache with zero network fetches;
after one successful fetch on a miss (with the active store the sole
store), any subsequent request for the same identity under any network
performs no fetch, changes nothing, and returns exactly the stored
bytes. -/
theorem cache_first_deterministic (version : String)
    (net net2 : Url → Option Response) (st : Store) (u : Url) (r : Response)
    (hcl : classify u = .crossOriginCacheable)
    (hmiss : storeMatch st u = none)
    (hnet : net u = some r) :
    (handleFetch version net [(version, st)] u).result = .response r
    ∧ (handleFetch version net [(version, st)] u).fetched = [u]
    ∧ handleFetch version net2
        (handleFetch version net [(version, st)] u).stores u
      = ⟨.response r, (handleFetch version net [(version, st)] u).stores, 1, 0, []⟩
    ∧ (∀ (cs : CacheStorage) (c : Response), csMatch cs u = some c →
        handleFetch version net2 cs u = ⟨.response c, cs, 1, 0, []⟩) := by
  have hm1 : csMatch [(version, st)] u = none := by
    rw [csMatch_single]
    exact hmiss
  have hout : handleFetch version net [(version, st)] u
      = ⟨.response r, csPut [(version, st)] version u r, 1, 1, [u]⟩ := by
    simp [handleFetch, hcl, hm1, hnet]
  have hstores : (handleFetch version net [(version, st)] u).stores
      = [(version, storePut st u r)] := by
    rw [hout]
    exact csPut_single version st u r
  have hm2 : csMatch [(version, storePut st u r)] u = some r := by
    rw [csMatch_single]
    exact storeMatch_storePut st u r
  refine ⟨by rw [hout], by rw [hout], ?_, ?_⟩
  · rw [hstores]
    simp [handleFetch, hcl, hm2]
  · intro cs c hm
    simp [handleFetch, hcl, hm]

/-- Witness for C6: a Google Fonts resource fetched once is afterwards
served from the cache with zero fetches under a dead network. -/
theorem cache_first_deterministic_witness :
    (handleFetch "v1" (fun _ => some ⟨200, "woff2"⟩) [("v1", [])]
        ⟨"fonts.gstatic.com", "/font.woff2"⟩).result = .response ⟨200, "woff2"⟩
    ∧ (handleFetch "v1" (fun _ => some ⟨200, "woff2"⟩) [("v1", [])]
        ⟨"fonts.gstatic.com", "/font.woff2"⟩).fetched
      = [⟨"fonts.gstatic.com", "/font.woff2"⟩]
    ∧ handleFetch "v1" (fun _ => none)
        (handleFetch "v1" (fun _ => some ⟨200, "woff2"⟩) [("v1", [])]
          ⟨"fonts.gstatic.com", "/font.woff2"⟩).stores
        ⟨"fonts.gstatic.com", "/font.woff2"⟩
      = ⟨.response ⟨200, "woff2"⟩,
          (handleFetch "v1" (fun _ => some ⟨200, "woff2"⟩) [("v1", [])]
            ⟨"fonts.gstatic.com", "/font.woff2"⟩).stores, 1, 0, []⟩
    ∧ (∀ (cs : CacheStorage) (c : Response),
        csMatch cs ⟨"fonts.gstatic.com", "/font.woff2"⟩ = some c →
        handleFetch "v1" (fun _ => none) cs ⟨"fonts.gstatic.com", "/font.woff2"⟩
          = ⟨.response c, cs, 1, 0, []⟩) :=
  cache_first_deterministic "v1" (fun _ => some ⟨200, "woff2"⟩) (fun _ => none)
    [] ⟨"fonts.gstatic.com", "/font.woff2"⟩ ⟨200, "woff2"⟩
    (by decide) (by decide) (by decide)

/-- Claim C1, counterexample to the wording "no store for the new
generation persists": install v2 while v1 is active and populated, with
the fetch of /static/util.js rejecting.  Install fails and v1 stays
active, but a (empty) store named v2 does persist in the cache storage,
because caches.open creates it before addAll fails. -/
theorem install_failure_v2_store_persists :
    csLookup (upgrade "v2" "self"
        (fun u => if u.pathname = "/static/util.js" then none else some ⟨200, "ok"⟩)
        ⟨[("v1", [(⟨"self", "/static/dist.css"⟩, ⟨200, "v1css"⟩)])], "v1"⟩).stores "v2"
      = some []
    ∧ (upgrade "v2" "self"
        (fun u => if u.pathname = "/static/util.js" then none else some ⟨200, "ok"⟩)
        ⟨[("v1", [(⟨"self", "/static/dist.css"⟩, ⟨200, "v1css"⟩)])], "v1"⟩).active
      = "v1" :=
  ⟨by decide, by decide⟩

/-- Claim C1 (amended): if any shell-asset fetch fails during install of a
new generation v2, the install fails as a whole and addAll adds nothing:
every pre-existing store — the previous generation's included — is
untouched, the previous generation remains active, and it serves every
request exactly as before.  The store caches.open created for v2,
however, persists empty rather than not existing at all. -/
theorem install_failure_keeps_old_generation (v2 host : String)
    (net : Url → Option Response) (sw : SW) (uf : Url)
    (hmem : uf ∈ shellUrls host) (hf : fetchOk net uf = none)
    (hnew : csHas sw.stores v2 = false) :
    (upgrade v2 host net sw).active = sw.active
    ∧ csLookup (upgrade v2 host net sw).stores v2 = some []
    ∧ (∀ n, n ≠ v2 →
        csLookup (upgrade v2 host net sw).stores n = csLookup sw.stores n)
    ∧ (∀ (net2 : Url → Option Response) (u : Url),
        (handleFetch sw.active net2 (upgrade v2 host net sw).stores u).result
          = (handleFetch sw.active net2 sw.stores u).result) := by
  have hall : allFetch net (shellUrls host) = none :=
    allFetch_eq_none net (shellUrls host) uf hmem hf
  have hopen : csOpen sw.stores v2 = sw.stores ++ [(v2, [])] := by
    unfold csOpen
    rw [if_neg (by simp [hnew])]
  have hup : upgrade v2 host net sw = ⟨sw.stores ++ [(v2, [])], sw.active⟩ := by
    simp [upgrade, install, hall, hopen]
  refine ⟨by rw [hup], ?_, ?_, ?_⟩
  · rw [hup]
    exact csLookup_append_empty_self sw.stores v2 hnew
  · intro n hn
    rw [hup]
    exact csLookup_append_empty_ne sw.stores v2 n hn
  · intro net2 u
    rw [hup]
    exact handleFetch_result_append_empty sw.active net2 sw.stores v2 u

/-- Witness for C1 (amended) at the counterexample scenario: v1 stays
active, its store is unchanged, and a shell-asset request is still
answered from v1's store after the failed install. -/
theorem install_failure_keeps_old_generation_witness :
    (upgrade "v2" "self"
        (fun u => if u.pathname = "/static/util.js" then none else some ⟨200, "ok"⟩)
        ⟨[("v1", [(⟨"self", "/static/dist.css"⟩, ⟨200, "v1css"⟩)])], "v1"⟩).active = "v1"
    ∧ csLookup (upgrade "v2" "self"
        (fun u => if u.pathname = "/static/util.js" then none else some ⟨200, "ok"⟩)
        ⟨[("v1", [(⟨"self", "/static/dist.css"⟩, ⟨200, "v1css"⟩)])], "v1"⟩).stores "v1"
      = csLookup [("v1", [(⟨"self", "/static/dist.css"⟩, ⟨200, "v1css"⟩)])] "v1"
    ∧ (handleFetch "v1" (fun _ => none)
        (upgrade "v2" "self"
          (fun u => if u.pathname = "/static/util.js" then none else some ⟨200, "ok"⟩)
          ⟨[("v1", [(⟨"self", "/static/dist.css"⟩, ⟨200, "v1css"⟩)])], "v1"⟩).stores
        ⟨"self", "/static/dist.css"⟩).result
      = (handleFetch "v1" (fun _ => none)
          [("v1", [(⟨"self", "/static/dist.css"⟩, ⟨200, "v1css"⟩)])]
          ⟨"self", "/static/dist.css"⟩).result := by
  have h := install_failure_keeps_old_generation "v2" "self"
    (fun u => if u.pathname = "/static/util.js" then none else some ⟨200, "ok"⟩)
    ⟨[("v1", [(⟨"self", "/static/dist.css"⟩, ⟨200, "v1css"⟩)])], "v1"⟩
    ⟨"self", "/static/util.js"⟩ (by decide) (by decide) (by decide)
  exact ⟨h.1, h.2.2.1 "v1" (by decide), h.2.2.2 (fun _ => none) ⟨"self", "/static/dist.css"⟩⟩

/-- Claim C5, counterexample: the fetch listener never inspects the
response status.  A 500 response on a dynamic route is returned to the
page instead of the cached fallback the claim requires, and a 404
response on a shell-asset route is written into the cache. -/
theorem non_success_status_counterexample :
    (handleFetch "v1" (fun _ => some ⟨500, "err"⟩)
        [("v1", [(⟨"example.com", "/g/abc"⟩, ⟨200, "cached"⟩)])]
        ⟨"example.com", "/g/abc"⟩).result = .response ⟨500, "err"⟩
    ∧ csRead (handleFetch "v1" (fun _ => some ⟨404, "missing"⟩)
        [("v1", [])] ⟨"example.com", "/static/dist.css"⟩).stores
        "v1" ⟨"example.com", "/static/dist.css"⟩ = some ⟨404, "missing"⟩ :=
  ⟨by decide, by decide⟩

/-- Claim C5 (amended): the fetch strategies treat a resolved response of
any status exactly like a success: a resolved dynamic-route response is
returned without consulting the cache fallback, and the
stale-while-revalidate and cache-first strategies write the resolved
response into the active generation's store whatever its status.  Only
install's Cache.addAll rejects a non-success response, so such a response
makes the whole shell-asset install fail. -/
theorem non_success_treated_as_success (version : String)
    (net : Url → Option Response) (cs : CacheStorage) (u : Url) (r : Response)
    (hnet : net u = some r) (hbad : r.ok = false) :
    (classify u = .dynamic →
        handleFetch version net cs u = ⟨.response r, cs, 0, 0, [u]⟩)
    ∧ (classify u = .shellAsset →
        csRead (handleFetch version net cs u).stores version u = some r)
    ∧ (classify u = .crossOriginCacheable → csMatch cs u = none →
        csRead (handleFetch version net cs u).stores version u = some r)
    ∧ (∀ host, u ∈ shellUrls host → allFetch net (shellUrls host) = none) := by
  refine ⟨?_, ?_, ?_, ?_⟩
  · intro hcl
    simp [handleFetch, hcl, hnet]
  · intro hcl
    have hst : (handleFetch version net cs u).stores = csPut cs version u r := by
      simp [handleFetch, hcl, hnet]
    rw [hst]
    exact csRead_csPut cs version u r
  · intro hcl hm
    have hst : (handleFetch version net cs u).stores = csPut cs version u r := by
      simp [handleFetch, hcl, hm, hnet]
    rw [hst]
    exact csRead_csPut cs version u r
  · intro host hmem
    have hf : fetchOk net u = none := by
      simp [fetchOk, hnet, hbad]
    exact allFetch_eq_none net (shellUrls host) u hmem hf

/-- Witness for C5 (amended): the 500 response on a dynamic route is
delivered unchanged, with no fallback and no write. -/
theorem non_success_treated_as_success_witness :
    handleFetch "v1" (fun _ => some ⟨500, "err"⟩)
        [("v1", [(⟨"example.com", "/g/abc"⟩, ⟨200, "cached"⟩)])]
        ⟨"example.com", "/g/abc"⟩
      = ⟨.response ⟨500, "err"⟩,
          [("v1", [(⟨"example.com", "/g/abc"⟩, ⟨200, "cached"⟩)])],
          0, 0, [⟨"example.com", "/g/abc"⟩]⟩ :=
  (non_success_treated_as_success "v1" (fun _ => some ⟨500, "err"⟩)
    [("v1", [(⟨"example.com", "/g/abc"⟩, ⟨200, "cached"⟩)])]
    ⟨"example.com", "/g/abc"⟩ ⟨500, "err"⟩ (by decide) (by decide)).1 (by decide)

/-- Claim C8, counterexample: with a stale v1 store still present (after a
failed cleanup) and v2 the active generation, a stale-while-revalidate
request is answered from the v1 store — a read from a non-active
generation — while the active v2 store holds no entry for the request. -/
theorem stale_generation_read_counterexample :
    (handleFetch "v2" (fun _ => none)
        [("v1", [(⟨"example.com", "/static/dist.css"⟩, ⟨200, "old-v1"⟩)]), ("v2", [])]
        ⟨"example.com", "/static/dist.css"⟩).result = .response ⟨200, "old-v1"⟩
    ∧ csRead [("v1", [(⟨"example.com", "/static/dist.css"⟩, ⟨200, "old-v1"⟩)]), ("v2", [])]
        "v2" ⟨"example.com", "/static/dist.css"⟩ = none :=
  ⟨by decide, by decide⟩

/-- Claim C8 (amended): every cache write of the dispatcher addresses the
store named for the currently active generation — a store of any other
name is never modified — but cache reads go through caches.match, which
searches every existing store in creation order, so a read can be served
from a stale non-active store when one persists; when the active
generation's store is the sole store (the state a successful activation
establishes) every store the dispatcher leaves behind is still the active
one's. -/
theorem writes_only_active_generation (version : String)
    (net : Url → Option Response) (cs : CacheStorage) (u : Url) :
    (∀ n, n ≠ version →
        csLookup (handleFetch version net cs u).stores n = csLookup cs n)
    ∧ ((∀ p ∈ cs, p.1 = version) →
        ∀ p ∈ (handleFetch version net cs u).stores, p.1 = version) :=
  ⟨fun n hn => handleFetch_stores_ne version net cs u n hn,
    fun hall => handleFetch_names version net cs u hall⟩

/-- Witness for C8 (amended): a stale-while-revalidate write lands only in
the active v2 store, leaving the stale v1 store byte-identical. -/
theorem writes_only_active_generation_witness :
    csLookup (handleFetch "v2" (fun _ => some ⟨200, "new"⟩)
        [("v1", [(⟨"example.com", "/static/dist.css"⟩, ⟨200, "old-v1"⟩)]), ("v2", [])]
        ⟨"example.com", "/static/dist.css"⟩).stores "v1"
      = csLookup
        [("v1", [(⟨"example.com", "/static/dist.css"⟩, ⟨200, "old-v1"⟩)]), ("v2", [])]
        "v1" :=
  (writes_only_active_generation "v2" (fun _ => some ⟨200, "new"⟩)
    [("v1", [(⟨"example.com", "/static/dist.css"⟩, ⟨200, "old-v1"⟩)]), ("v2", [])]
    ⟨"example.com", "/static/dist.css"⟩).1 "v1" (by decide)

/-- Claim C9: generation transition.  Activation deletes every store whose
name differs from the new active generation's and leaves that
generation's store untouched, so every remaining store is the active
one's; and install of a new generation leaves every other store — the
previously active one's included — unmodified. -/
theorem activate_deletes_other_generations (v host : String)
    (net : Url → Option Response) (cs : CacheStorage) :
    (∀ n, n ≠ v → csLookup (activate v cs) n = none)
    ∧ csLookup (activate v cs) v = csLookup cs v
    ∧ (∀ p ∈ activate v cs, p.1 = v)
    ∧ (∀ n, n ≠ v → csLookup (install v host net cs).2 n = csLookup cs n) := by
  refine ⟨fun n hn => csLookup_activate_ne v cs n hn,
    csLookup_activate_self v cs, activate_names v cs, fun n hn => ?_⟩
  unfold install
  cases hall : allFetch net (shellUrls host) with
  | none => simpa using csLookup_csOpen_ne cs v n hn
  | some prs =>
      simp only []
      rw [csLookup_foldl_put_ne prs (csOpen cs v) v n hn,
        csLookup_csOpen_ne cs v n hn]

/-- Witness for C9: activating v2 over a populated v1 deletes v1's store,
keeps v2's bytes, and a fresh v2 install never modified v1's store. -/
theorem activate_deletes_other_generations_witness :
    csLookup (activate "v2"
        [("v1", [(⟨"self", "/static/dist.css"⟩, ⟨200, "v1css"⟩)]),
          ("v2", [(⟨"self", "/static/dist.css"⟩, ⟨200, "v2css"⟩)])]) "v1" = none
    ∧ csLookup (activate "v2"
        [("v1", [(⟨"self", "/static/dist.css"⟩, ⟨200, "v1css"⟩)]),
          ("v2", [(⟨"self", "/static/dist.css"⟩, ⟨200, "v2css"⟩)])]) "v2"
      = csLookup
        [("v1", [(⟨"self", "/static/dist.css"⟩, ⟨200, "v1css"⟩)]),
          ("v2", [(⟨"self", "/static/dist.css"⟩, ⟨200, "v2css"⟩)])] "v2"
    ∧ csLookup (install "v2" "self" (fun _ => some ⟨200, "v2bytes"⟩)
        [("v1", [(⟨"self", "/static/dist.css"⟩, ⟨200, "v1css"⟩)]),
          ("v2", [(⟨"self", "/static/dist.css"⟩, ⟨200, "v2css"⟩)])]).2 "v1"
      = csLookup
        [("v1", [(⟨"self", "/static/dist.css"⟩, ⟨200, "v1css"⟩)]),
          ("v2", [(⟨"self", "/static/dist.css"⟩, ⟨200, "v2css"⟩)])] "v1" := by
  have h := activate_deletes_other_generations "v2" "self"
    (fun _ => some ⟨200, "v2bytes"⟩)
    [("v1", [(⟨"self", "/static/dist.css"⟩, ⟨200, "v1css"⟩)]),
      ("v2", [(⟨"self", "/static/dist.css"⟩, ⟨200, "v2css"⟩)])]
  exact ⟨h.1 "v1" (by decide), h.2.1, h.2.2.2 "v1" (by decide)⟩
